import Mathlib

/-!
Shallow embedding of `create_vps.py` (Vultr VPS provisioning script).

Python dicts are embedded as association lists `List (String × _)`: Python 3.7+
dicts iterate in insertion order, and `d.items()` iteration order is exactly the
list order. Python `None` is `Option.none`; a Python local variable that may be
read before any assignment is a `PyLocal` (reading it while `unbound` raises
`UnboundLocalError`). Exceptions are the error channel of `Except PyErr`.
`print` output is collected in explicit logs.
-/

namespace CreateVps

/-- CONSTANT: the target OS that needs to be installed. -/
def TARGET_OS : String := "Debian 10 x64 (buster)"

/-- CONSTANT: the target price that the VPS will be billed at. -/
def TARGET_PLAN_PRICE : String := "5.00"

/-- CONSTANT: the target datacenter that the VPS will be spawned in. -/
def TARGET_DATACENTER : String := "Toronto"

/-- CONSTANT: the hostname and label attached to the server. -/
def HOSTNAME : String := "bgp-coldnorthadmin"

/-- CONSTANT: the name of the desired SSH key. -/
def TARGET_SSHKEY : String := "bgp-coldnorthadmin"

/-- Exceptions the script can raise.  `genericMissingAttribute` and
`maxServerAlreadyRunning` are the two exception classes defined in the file;
`unboundLocalError` is Python's built-in error for reading a local variable
that was never assigned. -/
inductive PyErr where
  | genericMissingAttribute (message : String)
  | maxServerAlreadyRunning (message : String)
  | unboundLocalError (varName : String)
deriving DecidableEq, Repr

/-- A Python local variable that has no initialisation before its first
possible assignment: it is either still unbound or has been assigned. -/
inductive PyLocal (α : Type) where
  | unbound
  | assigned (v : α)
deriving DecidableEq, Repr

/-- An SSH key record returned by the provider (the fields the script reads). -/
structure SshKey where
  name : String
  SSHKEYID : String
deriving DecidableEq, Repr

/-- A plan record returned by the provider (the fields the script reads). -/
structure Plan where
  price_per_month : String
  VPSPLANID : String
deriving DecidableEq, Repr

/-- An OS record returned by the provider (the fields the script reads). -/
structure Os where
  name : String
  OSID : String
deriving DecidableEq, Repr

/-- A datacenter region record returned by the provider. -/
structure Region where
  name : String
  DCID : String
deriving DecidableEq, Repr

/-- A server instance record returned by the provider: label, lifecycle
status (`status`) and health status (`server_state`). -/
structure Server where
  label : String
  status : String
  server_state : String
deriving DecidableEq, Repr

/-- `check_return_value(value, message)`: raises `GenericMissingAttribute`
with the given message if the value is `None`. -/
def check_return_value {α : Type} (value : Option α) (message : String) :
    Except PyErr Unit :=
  match value with
  | none => .error (.genericMissingAttribute message)
  | some _ => .ok ()

/-- `get_limit_running_servers(servers_dict)`: raises
`MaxServerAlreadyRunning` when at least one server is running, otherwise
returns `True`. -/
def get_limit_running_servers (servers_dict : List (String × Server)) :
    Except PyErr Bool :=
  if servers_dict.length ≥ 1 then
    .error (.maxServerAlreadyRunning "Maximum servers currently running")
  else
    .ok true

/-- `get_ssh_key(ssh_keys_dict)`: `target_ssh_key` is initialised to `None`,
the loop overwrites it with every candidate whose `name` equals
`TARGET_SSHKEY`, then `check_return_value` rejects `None`. -/
def get_ssh_key (ssh_keys_dict : List (String × SshKey)) :
    Except PyErr SshKey :=
  let target_ssh_key : Option SshKey := ssh_keys_dict.foldl
    (fun acc ssh_key =>
      if ssh_key.2.name = TARGET_SSHKEY then some ssh_key.2 else acc) none
  match check_return_value target_ssh_key
      ("We tried to find: " ++ TARGET_SSHKEY ++ " and nothing matched from Vultr") with
  | .error e => .error e
  | .ok _ =>
    match target_ssh_key with
    | some target => .ok target
    | none => .error (.genericMissingAttribute
        ("We tried to find: " ++ TARGET_SSHKEY ++ " and nothing matched from Vultr"))

/-- `get_plan(plans_dict)`: `target_plan` is initialised to `None`, the loop
overwrites it with every candidate whose `price_per_month` equals
`TARGET_PLAN_PRICE`, then `check_return_value` rejects `None`. -/
def get_plan (plans_dict : List (String × Plan)) : Except PyErr Plan :=
  let target_plan : Option Plan := plans_dict.foldl
    (fun acc plan =>
      if plan.2.price_per_month = TARGET_PLAN_PRICE then some plan.2 else acc) none
  match check_return_value target_plan
      ("We tried to find: " ++ TARGET_PLAN_PRICE ++ " and nothing matched from Vultr") with
  | .error e => .error e
  | .ok _ =>
    match target_plan with
    | some target => .ok target
    | none => .error (.genericMissingAttribute
        ("We tried to find: " ++ TARGET_PLAN_PRICE ++ " and nothing matched from Vultr"))

/-- `get_os(os_dict)`: unlike `get_ssh_key` and `get_plan`, the source has NO
`target_os = None` initialisation before the loop, so when no candidate
matches, the read of `target_os` at the `check_return_value` call raises
`UnboundLocalError`, never reaching `GenericMissingAttribute`.  When the
variable was assigned, its value is a record (never `None`), so
`check_return_value` passes. -/
def get_os (os_dict : List (String × Os)) : Except PyErr Os :=
  let target_os : PyLocal Os := os_dict.foldl
    (fun acc os =>
      if os.2.name = TARGET_OS then PyLocal.assigned os.2 else acc)
    PyLocal.unbound
  match target_os with
  | .unbound => .error (.unboundLocalError "target_os")
  | .assigned target =>
    match check_return_value (some target)
        ("We tried to find: " ++ TARGET_OS ++ " and nothing matched from Vultr") with
    | .error e => .error e
    | .ok _ => .ok target

/-- `get_datacenter(regions_dict)`: same missing initialisation as `get_os`:
`target_datacenter` is unbound when no candidate matches, so the read raises
`UnboundLocalError`. -/
def get_datacenter (regions_dict : List (String × Region)) :
    Except PyErr Region :=
  let target_datacenter : PyLocal Region := regions_dict.foldl
    (fun acc datacenter =>
      if datacenter.2.name = TARGET_DATACENTER then PyLocal.assigned datacenter.2
      else acc)
    PyLocal.unbound
  match target_datacenter with
  | .unbound => .error (.unboundLocalError "target_datacenter")
  | .assigned target =>
    match check_return_value (some target)
        ("We tried to find: " ++ TARGET_DATACENTER ++ " and nothing matched from Vultr") with
    | .error e => .error e
    | .ok _ => .ok target

/-- The mismatch message printed when the labelled instance is found but not
yet in the active/ok combined state. -/
def mismatch_message (server_details : Server) : String :=
  "Expecting STATUS \"ACTIVE\" and SERVER_STATE \"OK\" but Vultr returned: "
    ++ server_details.status ++ " and " ++ server_details.server_state

/-- The inner `for server in servers_dict.items()` scan of `poll_server`:
threads the `server_state` flag and the printed lines through the list. -/
def scan_servers (servers_dict : List (String × Server))
    (st : Bool × List String) : Bool × List String :=
  servers_dict.foldl
    (fun acc server =>
      let server_details := server.2
      if server_details.label = HOSTNAME then
        if server_details.status ≠ "active" ∨ server_details.server_state ≠ "ok" then
          (acc.1, acc.2 ++ [mismatch_message server_details])
        else
          (true, acc.2)
      else acc)
    st

/-- The loop state of `poll_server`: the `server_state` flag and `timeout`
counter of the source, plus the number `k` of fetches performed so far (the
index into the response script) and the lines printed so far. -/
structure LoopSt where
  server_state : Bool
  timeout : Nat
  k : Nat
  log : List String
deriving DecidableEq, Repr

/-- The `while` condition: `server_state is not True and timeout < 10`. -/
def poll_guard (st : LoopSt) : Bool :=
  !st.server_state && decide (st.timeout < 10)

/-- One body of the `while` loop of `poll_server`, given the instance list
`servers_dict` that `vultr_client.server.list()` returned this iteration:
an empty list increments `timeout` and logs the no-servers line; a non-empty
list is scanned without touching `timeout`. -/
def loop_body (servers_dict : List (String × Server)) (st : LoopSt) : LoopSt :=
  if servers_dict.length = 0 then
    { st with
        timeout := st.timeout + 1
        k := st.k + 1
        log := st.log ++ ["There are no servers currently running or shutdown"] }
  else
    let res := scan_servers servers_dict (st.server_state, [])
    { st with
        server_state := res.1
        k := st.k + 1
        log := st.log ++ res.2 }

/-- Run the `while` loop of `poll_server` for at most `fuel` iterations over a
script of fetch responses (`script k` is what the `k`-th call to
`vultr_client.server.list()` inside the loop returns).  Stops early as soon as
the guard fails; the source loop itself has no other exit. -/
def poll_steps (script : Nat → List (String × Server)) :
    Nat → LoopSt → LoopSt
  | 0, st => st
  | fuel + 1, st =>
    if poll_guard st then poll_steps script fuel (loop_body (script st.k) st)
    else st

/-- The initial loop state: `server_state = False`, `timeout = 0`. -/
def poll_init : LoopSt := ⟨false, 0, 0, []⟩

/-- `poll_server(vultr_client)` over a response script: run the loop; when it
exits within `fuel` iterations, the `while ... else:` clause prints
`Server is Ready!` — the loop body contains no `break`, so Python runs the
`else` clause on EVERY exit, timed-out ones included.  `none` means the loop
is still running after `fuel` iterations. -/
def poll_server (script : Nat → List (String × Server)) (fuel : Nat) :
    Option LoopSt :=
  let st := poll_steps script fuel poll_init
  if poll_guard st then none
  else some { st with log := st.log ++ ["Server is Ready!"] }

/-- The provider responses `main` consumes before polling: one response per
list endpoint. -/
structure Provider where
  servers : List (String × Server)
  plans : List (String × Plan)
  oses : List (String × Os)
  regions : List (String × Region)
  ssh_keys : List (String × SshKey)
deriving Repr

/-- One observable call `main` issues to the Vultr client. -/
inductive ApiCall where
  | server_list
  | plans_list
  | os_list
  | regions_list
  | sshkey_list
  | server_create (dcid : String) (vpsplanid : String) (osid : String)
      (hostname : String) (label : String) (sshkeyid : String)
deriving DecidableEq, Repr

/-- The provider-call trace of `main` up to and including the create call,
together with its outcome: an uncaught exception aborts the run immediately,
so no later call is issued.  The five list calls happen in source order
(`server.list`, then — only after the quota guard passes — `plans.list`,
`os.list`, `regions.list`, `sshkey.list`), and the create call carries the
resolved `DCID`, `VPSPLANID`, `OSID`, with `hostname` and `label` both set to
`HOSTNAME` and the resolved `SSHKEYID`. -/
def main_calls (p : Provider) : List ApiCall × Except PyErr Unit :=
  match get_limit_running_servers p.servers with
  | .error e => ([.server_list], .error e)
  | .ok _ =>
    let listing : List ApiCall :=
      [.server_list, .plans_list, .os_list, .regions_list, .sshkey_list]
    match get_plan p.plans with
    | .error e => (listing, .error e)
    | .ok target_plan =>
      match get_os p.oses with
      | .error e => (listing, .error e)
      | .ok target_os =>
        match get_datacenter p.regions with
        | .error e => (listing, .error e)
        | .ok target_datacenter =>
          match get_ssh_key p.ssh_keys with
          | .error e => (listing, .error e)
          | .ok target_ssh_key =>
            (listing ++ [.server_create target_datacenter.DCID
                target_plan.VPSPLANID target_os.OSID
                HOSTNAME HOSTNAME target_ssh_key.SSHKEYID],
             .ok ())

/-- Readiness of one instance record: label matches the configured hostname,
lifecycle status is `active`, health status is `ok`. -/
def is_ready_server (s : Server) : Bool :=
  decide (s.label = HOSTNAME ∧ s.status = "active" ∧ s.server_state = "ok")

/-- A response script every fetch of which is the empty instance list. -/
def empty_script : Nat → List (String × Server) := fun _ => []

/-- A fixture instance that is ready: configured label, active, ok. -/
def ready_server : Server := ⟨HOSTNAME, "active", "ok"⟩

/-- A fixture instance with the configured label that is not yet ready. -/
def pending_server : Server := ⟨HOSTNAME, "pending", "none"⟩

/-- A fixture instance whose label does not match the configured hostname. -/
def other_server : Server := ⟨"some-other-vps", "active", "ok"⟩

/-- A response script every fetch of which is a non-empty instance list that
never contains the configured label. -/
def nonempty_script : Nat → List (String × Server) :=
  fun _ => [("sub1", other_server)]

/-- A provider fixture with zero running instances and exactly one matching
candidate per dimension. -/
def fixture_provider : Provider where
  servers := []
  plans := [("201", ⟨"5.00", "201"⟩)]
  oses := [("352", ⟨"Debian 10 x64 (buster)", "352"⟩)]
  regions := [("22", ⟨"Toronto", "22"⟩)]
  ssh_keys := [("KEYA", ⟨"bgp-coldnorthadmin", "KEYA"⟩)]

/-- Helper lemma: an iterate-and-overwrite fold keeps the value produced from
the LAST element satisfying the condition, i.e. from the first match of the
reversed list; when nothing matches, the initial value survives. -/
theorem foldl_overwrite {α γ : Type} (c : α → Prop) [DecidablePred c]
    (g : α → γ) (l : List α) (init : γ) :
    l.foldl (fun acc x => if c x then g x else acc) init =
      match l.reverse.find? (fun x => decide (c x)) with
      | some m => g m
      | none => init := by
  induction l generalizing init with
  | nil => simp
  | cons x xs ih =>
    rw [List.foldl_cons, ih, List.reverse_cons, List.find?_append]
    by_cases hx : c x <;>
      cases hfind : xs.reverse.find? (fun x => decide (c x)) <;>
        simp [hfind, hx, Option.or]

/-- Helper lemma: the last element of a filtered list is the first match of
the reversed list. -/
theorem getLast?_filter_eq_find?_reverse {α : Type} (p : α → Bool)
    (l : List α) :
    (l.filter p).getLast? = l.reverse.find? p := by
  rw [List.getLast?_eq_head?_reverse, ← List.filter_reverse, List.filter_head?]

/-- Helper lemma: `get_ssh_key` in closed form, as a lookup of the last
matching candidate. -/
theorem get_ssh_key_eq (d : List (String × SshKey)) :
    get_ssh_key d =
      match d.reverse.find? (fun kv => decide (kv.2.name = TARGET_SSHKEY)) with
      | some kv => .ok kv.2
      | none => .error (.genericMissingAttribute
          ("We tried to find: " ++ TARGET_SSHKEY ++ " and nothing matched from Vultr")) := by
  unfold get_ssh_key
  rw [foldl_overwrite (fun kv : String × SshKey => kv.2.name = TARGET_SSHKEY)
    (fun kv => some kv.2)]
  cases hfind : d.reverse.find? (fun kv => decide (kv.2.name = TARGET_SSHKEY)) <;>
    simp [check_return_value]

/-- Helper lemma: `get_plan` in closed form, as a lookup of the last matching
candidate. -/
theorem get_plan_eq (d : List (String × Plan)) :
    get_plan d =
      match d.reverse.find? (fun kv => decide (kv.2.price_per_month = TARGET_PLAN_PRICE)) with
      | some kv => .ok kv.2
      | none => .error (.genericMissingAttribute
          ("We tried to find: " ++ TARGET_PLAN_PRICE ++ " and nothing matched from Vultr")) := by
  unfold get_plan
  rw [foldl_overwrite (fun kv : String × Plan => kv.2.price_per_month = TARGET_PLAN_PRICE)
    (fun kv => some kv.2)]
  cases hfind : d.reverse.find? (fun kv => decide (kv.2.price_per_month = TARGET_PLAN_PRICE)) <;>
    simp [check_return_value]

/-- Helper lemma: `get_os` in closed form: last matching candidate, or an
`UnboundLocalError` when nothing matched. -/
theorem get_os_eq (d : List (String × Os)) :
    get_os d =
      match d.reverse.find? (fun kv => decide (kv.2.name = TARGET_OS)) with
      | some kv => .ok kv.2
      | none => .error (.unboundLocalError "target_os") := by
  unfold get_os
  rw [foldl_overwrite (fun kv : String × Os => kv.2.name = TARGET_OS)
    (fun kv => PyLocal.assigned kv.2)]
  cases hfind : d.reverse.find? (fun kv => decide (kv.2.name = TARGET_OS)) <;>
    simp [check_return_value]

/-- Helper lemma: `get_datacenter` in closed form: last matching candidate, or
an `UnboundLocalError` when nothing matched. -/
theorem get_datacenter_eq (d : List (String × Region)) :
    get_datacenter d =
      match d.reverse.find? (fun kv => decide (kv.2.name = TARGET_DATACENTER)) with
      | some kv => .ok kv.2
      | none => .error (.unboundLocalError "target_datacenter") := by
  unfold get_datacenter
  rw [foldl_overwrite (fun kv : String × Region => kv.2.name = TARGET_DATACENTER)
    (fun kv => PyLocal.assigned kv.2)]
  cases hfind : d.reverse.find? (fun kv => decide (kv.2.name = TARGET_DATACENTER)) <;>
    simp [check_return_value]

/-- Helper lemma: the flag produced by the inner scan is the incoming flag
OR-ed with "some instance in the list is ready" — in particular an already-set
flag is never cleared by later instances. -/
theorem scan_servers_flag (l : List (String × Server)) (st : Bool × List String) :
    (scan_servers l st).1 = (st.1 || l.any fun kv => is_ready_server kv.2) := by
  induction l generalizing st with
  | nil => simp [scan_servers]
  | cons x xs ih =>
    simp only [scan_servers] at ih ⊢
    rw [List.foldl_cons, ih]
    by_cases h1 : x.2.label = HOSTNAME <;>
      by_cases h2 : x.2.status = "active" <;>
        by_cases h3 : x.2.server_state = "ok" <;>
          simp [h1, h2, h3, is_ready_server, Bool.or_assoc]

/-- Helper lemma: a loop body fed a non-empty instance list leaves the
`timeout` counter untouched. -/
theorem loop_body_timeout_of_ne_nil (servers_dict : List (String × Server))
    (st : LoopSt) (h : servers_dict ≠ []) :
    (loop_body servers_dict st).timeout = st.timeout := by
  rw [loop_body]
  simp [List.length_eq_zero, h]

/-- Helper lemma: over a script whose every response is non-empty, `timeout`
never moves. -/
theorem poll_steps_timeout_of_script_ne_nil
    (script : Nat → List (String × Server)) (h : ∀ k, script k ≠ [])
    (n : Nat) (st : LoopSt) :
    (poll_steps script n st).timeout = st.timeout := by
  induction n generalizing st with
  | zero => rfl
  | succ m ih =>
    rw [poll_steps]
    by_cases hg : poll_guard st = true
    · rw [if_pos hg, ih, loop_body_timeout_of_ne_nil _ _ (h st.k)]
    · rw [if_neg hg]

/-- C1: the claim says all four resolvers fail with `GenericMissingAttribute`
naming the target when zero candidates match.  That holds for `get_ssh_key`
and `get_plan` (their locals are initialised to `None`), but `get_os` and
`get_datacenter` never initialise their local, so a zero-match run raises
`UnboundLocalError` — which names no target — before `check_return_value` is
ever reached: the code contradicts its own error-reporting design.  The last
conjunct shows a non-empty no-match candidate set fails the same way. -/
theorem resolvers_zero_match_behaviour :
    get_ssh_key [] = .error (.genericMissingAttribute
      "We tried to find: bgp-coldnorthadmin and nothing matched from Vultr") ∧
    get_plan [] = .error (.genericMissingAttribute
      "We tried to find: 5.00 and nothing matched from Vultr") ∧
    get_os [] = .error (.unboundLocalError "target_os") ∧
    get_datacenter [] = .error (.unboundLocalError "target_datacenter") ∧
    get_os [("127", ⟨"CentOS 7 x64", "127"⟩)] =
      .error (.unboundLocalError "target_os") ∧
    get_datacenter [("1", ⟨"New Jersey", "1"⟩)] =
      .error (.unboundLocalError "target_datacenter") := by
  refine ⟨rfl, rfl, rfl, rfl, ?_, ?_⟩ <;> rfl

/-- C2: the claim says a run that times out after ten empty observations does
not print "Server is Ready!".  In the source the message sits in the loop's
`while ... else:` clause and the loop body contains no `break`, so Python runs
the clause on every exit: the timed-out run (flag still `False`, counter at
10) prints "Server is Ready!" all the same. -/
theorem poll_timed_out_run_still_prints_ready :
    poll_server empty_script 10 =
      some ⟨false, 10, 10,
        List.replicate 10 "There are no servers currently running or shutdown"
          ++ ["Server is Ready!"]⟩ ∧
    "Server is Ready!" ∈
      (List.replicate 10 "There are no servers currently running or shutdown"
        ++ ["Server is Ready!"]) := by
  exact ⟨rfl, by simp⟩

/-- C7: the poller starts at `server_state = False`, `timeout = 0`; against
ten consecutive empty instance lists the guard holds before each of the first
ten iterations, fails after the tenth with the counter at its maximum 10, the
flag still false (TimedOut), and an eleventh unit of fuel adds no iteration.
The embedding has no error channel for this loop: no exception is raised. -/
theorem poll_ten_empty_lists_times_out :
    poll_init.server_state = false ∧
    poll_init.timeout = 0 ∧
    ((List.range 10).all fun m =>
        poll_guard (poll_steps empty_script m poll_init)) = true ∧
    poll_steps empty_script 10 poll_init =
      ⟨false, 10, 10,
        List.replicate 10 "There are no servers currently running or shutdown"⟩ ∧
    poll_guard (poll_steps empty_script 10 poll_init) = false ∧
    poll_steps empty_script 11 poll_init = poll_steps empty_script 10 poll_init := by
  refine ⟨rfl, rfl, ?_, rfl, ?_, rfl⟩ <;> rfl

/-- C3: the attempt counter only moves on the empty-list branch: a loop body
fed the empty list increments it by one, a loop body fed any non-empty list
leaves it unchanged (matching-but-unready and not-found alike), and a run
whose fetches are always non-empty keeps the counter at 0 forever — so such a
run can only ever leave the loop with the ready flag set, never via the
counter. -/
theorem poll_counter_increments_only_on_empty :
    (∀ st : LoopSt, (loop_body [] st).timeout = st.timeout + 1) ∧
    (∀ (servers_dict : List (String × Server)) (st : LoopSt),
        servers_dict ≠ [] → (loop_body servers_dict st).timeout = st.timeout) ∧
    (∀ (script : Nat → List (String × Server)), (∀ k, script k ≠ []) →
        ∀ n : Nat,
          (poll_steps script n poll_init).timeout = 0 ∧
          (poll_guard (poll_steps script n poll_init) = false →
            (poll_steps script n poll_init).server_state = true)) := by
  refine ⟨fun st => rfl, loop_body_timeout_of_ne_nil, fun script h n => ?_⟩
  have ht : (poll_steps script n poll_init).timeout = 0 :=
    poll_steps_timeout_of_script_ne_nil script h n poll_init
  refine ⟨ht, fun hg => ?_⟩
  rw [poll_guard, ht] at hg
  simpa using hg

/-- C3 witness: a concrete always-non-empty script, 25 iterations, counter
still 0. -/
theorem poll_counter_increments_only_on_empty_witness :
    (loop_body [("sub1", other_server)] poll_init).timeout = poll_init.timeout ∧
    (poll_steps nonempty_script 25 poll_init).timeout = 0 :=
  ⟨poll_counter_increments_only_on_empty.2.1 [("sub1", other_server)] poll_init
      (by simp),
   (poll_counter_increments_only_on_empty.2.2 nonempty_script
      (fun k => by simp [nonempty_script]) 25).1⟩

/-- C4: the quota guard returns `True` on an empty running-instance
collection; on any collection of size ≥ 1 it raises
`MaxServerAlreadyRunning`, and `main` then issues no provider call beyond the
initial `server.list` fetch — the trace is exactly `[server_list]` with the
quota error as outcome. -/
theorem quota_guard_blocks_all_further_calls :
    get_limit_running_servers [] = .ok true ∧
    (∀ servers_dict : List (String × Server), servers_dict ≠ [] →
        get_limit_running_servers servers_dict =
          .error (.maxServerAlreadyRunning "Maximum servers currently running")) ∧
    (∀ p : Provider, p.servers ≠ [] →
        main_calls p = ([.server_list],
          .error (.maxServerAlreadyRunning "Maximum servers currently running"))) := by
  refine ⟨rfl, ?_, ?_⟩
  · intro servers_dict h
    rw [get_limit_running_servers, if_pos]
    exact List.length_pos.mpr h
  · intro p h
    have hq : get_limit_running_servers p.servers =
        .error (.maxServerAlreadyRunning "Maximum servers currently running") := by
      rw [get_limit_running_servers, if_pos]
      exact List.length_pos.mpr h
    rw [main_calls, hq]

/-- C4 witness: one running instance blocks provisioning after the first
fetch. -/
theorem quota_guard_blocks_all_further_calls_witness :
    get_limit_running_servers [("sub1", ready_server)] =
      .error (.maxServerAlreadyRunning "Maximum servers currently running") ∧
    main_calls ⟨[("sub1", ready_server)], [], [], [], []⟩ =
      ([.server_list],
       .error (.maxServerAlreadyRunning "Maximum servers currently running")) :=
  ⟨quota_guard_blocks_all_further_calls.2.1 [("sub1", ready_server)] (by simp),
   quota_guard_blocks_all_further_calls.2.2 ⟨[("sub1", ready_server)], [], [], [], []⟩
     (by simp)⟩

/-- C5: last-match-wins in every resolver: whenever more than one candidate
satisfies the predicate, the resolver returns the match encountered last in
iteration order. -/
theorem resolvers_last_match_wins :
    (∀ (d : List (String × SshKey)) (m : String × SshKey),
        1 < (d.filter fun kv => kv.2.name = TARGET_SSHKEY).length →
        (d.filter fun kv => kv.2.name = TARGET_SSHKEY).getLast? = some m →
        get_ssh_key d = .ok m.2) ∧
    (∀ (d : List (String × Plan)) (m : String × Plan),
        1 < (d.filter fun kv => kv.2.price_per_month = TARGET_PLAN_PRICE).length →
        (d.filter fun kv => kv.2.price_per_month = TARGET_PLAN_PRICE).getLast? = some m →
        get_plan d = .ok m.2) ∧
    (∀ (d : List (String × Os)) (m : String × Os),
        1 < (d.filter fun kv => kv.2.name = TARGET_OS).length →
        (d.filter fun kv => kv.2.name = TARGET_OS).getLast? = some m →
        get_os d = .ok m.2) ∧
    (∀ (d : List (String × Region)) (m : String × Region),
        1 < (d.filter fun kv => kv.2.name = TARGET_DATACENTER).length →
        (d.filter fun kv => kv.2.name = TARGET_DATACENTER).getLast? = some m →
        get_datacenter d = .ok m.2) := by
  refine ⟨fun d m _ hlast => ?_, fun d m _ hlast => ?_,
    fun d m _ hlast => ?_, fun d m _ hlast => ?_⟩ <;>
    rw [getLast?_filter_eq_find?_reverse] at hlast
  · rw [get_ssh_key_eq, hlast]
  · rw [get_plan_eq, hlast]
  · rw [get_os_eq, hlast]
  · rw [get_datacenter_eq, hlast]

/-- C5 witness: two matches per dimension; the later one wins everywhere. -/
theorem resolvers_last_match_wins_witness :
    get_ssh_key [("K1", ⟨TARGET_SSHKEY, "K1"⟩), ("K2", ⟨TARGET_SSHKEY, "K2"⟩)] =
      .ok ⟨TARGET_SSHKEY, "K2"⟩ ∧
    get_plan [("201", ⟨"5.00", "201"⟩), ("202", ⟨"5.00", "202"⟩)] =
      .ok ⟨"5.00", "202"⟩ ∧
    get_os [("352", ⟨TARGET_OS, "352"⟩), ("353", ⟨TARGET_OS, "353"⟩)] =
      .ok ⟨TARGET_OS, "353"⟩ ∧
    get_datacenter [("22", ⟨TARGET_DATACENTER, "22"⟩), ("23", ⟨TARGET_DATACENTER, "23"⟩)] =
      .ok ⟨TARGET_DATACENTER, "23"⟩ :=
  ⟨resolvers_last_match_wins.1 _ ("K2", ⟨TARGET_SSHKEY, "K2"⟩)
      (by decide) (by decide),
   resolvers_last_match_wins.2.1 _ ("202", ⟨"5.00", "202"⟩)
      (by decide) (by decide),
   resolvers_last_match_wins.2.2.1 _ ("353", ⟨TARGET_OS, "353"⟩)
      (by decide) (by decide),
   resolvers_last_match_wins.2.2.2 _ ("23", ⟨TARGET_DATACENTER, "23"⟩)
      (by decide) (by decide)⟩

/-- C6: when exactly one candidate satisfies the predicate, every resolver
returns that candidate. -/
theorem resolvers_unique_match :
    (∀ (d : List (String × SshKey)) (m : String × SshKey),
        (d.filter fun kv => kv.2.name = TARGET_SSHKEY) = [m] →
        get_ssh_key d = .ok m.2) ∧
    (∀ (d : List (String × Plan)) (m : String × Plan),
        (d.filter fun kv => kv.2.price_per_month = TARGET_PLAN_PRICE) = [m] →
        get_plan d = .ok m.2) ∧
    (∀ (d : List (String × Os)) (m : String × Os),
        (d.filter fun kv => kv.2.name = TARGET_OS) = [m] →
        get_os d = .ok m.2) ∧
    (∀ (d : List (String × Region)) (m : String × Region),
        (d.filter fun kv => kv.2.name = TARGET_DATACENTER) = [m] →
        get_datacenter d = .ok m.2) := by
  refine ⟨fun d m h => ?_, fun d m h => ?_, fun d m h => ?_, fun d m h => ?_⟩
  · have hlast := getLast?_filter_eq_find?_reverse
      (fun kv : String × SshKey => decide (kv.2.name = TARGET_SSHKEY)) d
    rw [h] at hlast
    rw [get_ssh_key_eq, ← hlast]
    simp
  · have hlast := getLast?_filter_eq_find?_reverse
      (fun kv : String × Plan => decide (kv.2.price_per_month = TARGET_PLAN_PRICE)) d
    rw [h] at hlast
    rw [get_plan_eq, ← hlast]
    simp
  · have hlast := getLast?_filter_eq_find?_reverse
      (fun kv : String × Os => decide (kv.2.name = TARGET_OS)) d
    rw [h] at hlast
    rw [get_os_eq, ← hlast]
    simp
  · have hlast := getLast?_filter_eq_find?_reverse
      (fun kv : String × Region => decide (kv.2.name = TARGET_DATACENTER)) d
    rw [h] at hlast
    rw [get_datacenter_eq, ← hlast]
    simp

/-- C6 witness: one matching candidate per dimension among decoys. -/
theorem resolvers_unique_match_witness :
    get_ssh_key [("K0", ⟨"other-key", "K0"⟩), ("K1", ⟨TARGET_SSHKEY, "K1"⟩)] =
      .ok ⟨TARGET_SSHKEY, "K1"⟩ ∧
    get_plan [("200", ⟨"10.00", "200"⟩), ("201", ⟨"5.00", "201"⟩)] =
      .ok ⟨"5.00", "201"⟩ ∧
    get_os [("127", ⟨"CentOS 7 x64", "127"⟩), ("352", ⟨TARGET_OS, "352"⟩)] =
      .ok ⟨TARGET_OS, "352"⟩ ∧
    get_datacenter [("1", ⟨"New Jersey", "1"⟩), ("22", ⟨TARGET_DATACENTER, "22"⟩)] =
      .ok ⟨TARGET_DATACENTER, "22"⟩ :=
  ⟨resolvers_unique_match.1 _ ("K1", ⟨TARGET_SSHKEY, "K1"⟩) (by decide),
   resolvers_unique_match.2.1 _ ("201", ⟨"5.00", "201"⟩)
      (by decide),
   resolvers_unique_match.2.2.1 _ ("352", ⟨TARGET_OS, "352"⟩) (by decide),
   resolvers_unique_match.2.2.2 _ ("22", ⟨TARGET_DATACENTER, "22"⟩) (by decide)⟩

/-- C8: a poll iteration whose fetched list contains an instance with the
configured label in lifecycle status "active" AND health status "ok" sets the
ready flag, and the loop guard then fails (Ready, stop).  Conversely, when no
instance satisfies all three conditions — in particular when instances match
the label but miss one of the two statuses — the flag stays down. -/
theorem poll_ready_transition :
    (∀ (servers_dict : List (String × Server)) (st : LoopSt),
        (∃ s ∈ servers_dict, s.2.label = HOSTNAME ∧
            s.2.status = "active" ∧ s.2.server_state = "ok") →
        (loop_body servers_dict st).server_state = true ∧
        poll_guard (loop_body servers_dict st) = false) ∧
    (∀ (servers_dict : List (String × Server)) (st : LoopSt),
        st.server_state = false →
        (∀ s ∈ servers_dict, s.2.label = HOSTNAME →
            ¬(s.2.status = "active" ∧ s.2.server_state = "ok")) →
        (loop_body servers_dict st).server_state = false) := by
  constructor
  · rintro servers_dict st ⟨s, hs, h1, h2, h3⟩
    have hne : servers_dict.length ≠ 0 := by
      simp [List.length_eq_zero, List.ne_nil_of_mem hs]
    have hflag : (loop_body servers_dict st).server_state = true := by
      rw [loop_body, if_neg hne]
      show (scan_servers servers_dict (st.server_state, [])).1 = true
      rw [scan_servers_flag]
      have hany : (servers_dict.any fun kv => is_ready_server kv.2) = true :=
        List.any_eq_true.mpr ⟨s, hs, decide_eq_true ⟨h1, h2, h3⟩⟩
      rw [hany, Bool.or_true]
    refine ⟨hflag, ?_⟩
    rw [poll_guard, hflag]
    rfl
  · intro servers_dict st hst h
    have hany : (servers_dict.any fun kv => is_ready_server kv.2) = false := by
      simp only [List.any_eq_false]
      intro s hs hr
      obtain ⟨h1, h2, h3⟩ := of_decide_eq_true hr
      exact h s hs h1 ⟨h2, h3⟩
    rw [loop_body]
    by_cases hlen : servers_dict.length = 0
    · rw [if_pos hlen]
      exact hst
    · rw [if_neg hlen]
      show (scan_servers servers_dict (st.server_state, [])).1 = false
      rw [scan_servers_flag, hst, hany]
      rfl

/-- C8 witness: a ready instance flips the flag and stops the loop; a
label-matching but pending instance leaves the flag down. -/
theorem poll_ready_transition_witness :
    ((loop_body [("a", ready_server)] poll_init).server_state = true ∧
      poll_guard (loop_body [("a", ready_server)] poll_init) = false) ∧
    (loop_body [("b", pending_server)] poll_init).server_state = false :=
  ⟨poll_ready_transition.1 [("a", ready_server)] poll_init
      ⟨("a", ready_server), by simp, rfl, rfl, rfl⟩,
   poll_ready_transition.2 [("b", pending_server)] poll_init rfl (by decide)⟩

/-- C9: when the quota guard passes and all four resolutions succeed, `main`
issues exactly one create call, carrying the resolved datacenter `DCID`, plan
`VPSPLANID`, OS `OSID`, with hostname and label both the configured
`HOSTNAME` constant and the resolved key's `SSHKEYID` — after exactly the
five list calls and nothing else. -/
theorem provisioner_single_create_call (p : Provider)
    (target_plan : Plan) (target_os : Os) (target_datacenter : Region)
    (target_ssh_key : SshKey)
    (hq : p.servers = [])
    (hp : get_plan p.plans = .ok target_plan)
    (ho : get_os p.oses = .ok target_os)
    (hd : get_datacenter p.regions = .ok target_datacenter)
    (hk : get_ssh_key p.ssh_keys = .ok target_ssh_key) :
    main_calls p =
      ([.server_list, .plans_list, .os_list, .regions_list, .sshkey_list,
        .server_create target_datacenter.DCID target_plan.VPSPLANID
          target_os.OSID HOSTNAME HOSTNAME target_ssh_key.SSHKEYID],
       .ok ()) := by
  have h0 : get_limit_running_servers p.servers = .ok true := by
    rw [hq]
    rfl
  simp only [main_calls, h0, hp, ho, hd, hk]
  rfl

/-- C9 witness: the end-to-end fixture — zero running instances, one
matching candidate per dimension — produces the single fully-resolved create
call. -/
theorem provisioner_single_create_call_witness :
    main_calls fixture_provider =
      ([.server_list, .plans_list, .os_list, .regions_list, .sshkey_list,
        .server_create "22" "201" "352"
          "bgp-coldnorthadmin" "bgp-coldnorthadmin" "KEYA"],
       .ok ()) :=
  provisioner_single_create_call fixture_provider
    ⟨"5.00", "201"⟩ ⟨"Debian 10 x64 (buster)", "352"⟩ ⟨"Toronto", "22"⟩
    ⟨"bgp-coldnorthadmin", "KEYA"⟩ rfl rfl rfl rfl rfl

/-- C10: within one scan the ready flag is monotone — a scan entered with the
flag set leaves it set — and an earlier ready instance forces the flag even
when a later instance in the same scan has the same label but is not ready. -/
theorem scan_ready_flag_monotone :
    (∀ (l : List (String × Server)) (msgs : List String),
        (scan_servers l (true, msgs)).1 = true) ∧
    (∀ (pre post : List (String × Server)) (r nr : String × Server)
        (st : LoopSt),
        r.2.label = HOSTNAME → r.2.status = "active" → r.2.server_state = "ok" →
        nr.2.label = HOSTNAME →
        ¬(nr.2.status = "active" ∧ nr.2.server_state = "ok") →
        (loop_body (pre ++ r :: (post ++ [nr])) st).server_state = true) := by
  constructor
  · intro l msgs
    rw [scan_servers_flag]
    rfl
  · intro pre post r nr st h1 h2 h3 _ _
    have hmem : r ∈ pre ++ r :: (post ++ [nr]) := by simp
    have hne : (pre ++ r :: (post ++ [nr])).length ≠ 0 := by
      simp [List.length_eq_zero, List.ne_nil_of_mem hmem]
    rw [loop_body, if_neg hne]
    show (scan_servers (pre ++ r :: (post ++ [nr])) (st.server_state, [])).1 = true
    rw [scan_servers_flag]
    have hany : ((pre ++ r :: (post ++ [nr])).any fun kv => is_ready_server kv.2) = true :=
      List.any_eq_true.mpr ⟨r, hmem, decide_eq_true ⟨h1, h2, h3⟩⟩
    rw [hany, Bool.or_true]

/-- C10 witness: a ready instance followed by a same-label pending instance
still yields the ready flag; a scan entered with the flag set keeps it. -/
theorem scan_ready_flag_monotone_witness :
    (scan_servers [("b", pending_server)] (true, [])).1 = true ∧
    (loop_body [("a", ready_server), ("b", pending_server)] poll_init).server_state = true :=
  ⟨scan_ready_flag_monotone.1 [("b", pending_server)] [],
   scan_ready_flag_monotone.2 [] [] ("a", ready_server) ("b", pending_server)
     poll_init rfl rfl rfl rfl (by decide)⟩

end CreateVps
